import Mathlib

/-!
Shallow embedding of the collision subsystem of draugrs_descent:
`src/utils/collision_handler.py` together with the parts of
`src/objects/{player,enemy,powerup}.py` that its resolution handlers call.

Python integers are `Int`; Python `//` (floor division) is `Int.fdiv`;
the float midpoint comparisons of `QuadTree.get_index` are encoded exactly
over integers (see `getIndex`); pygame surfaces are
represented by their opaque-pixel footprint, which is exactly the data
`pygame.mask.from_surface` extracts; pygame's clock (`get_ticks`) is an
explicit `now : Int` parameter; in-place mutation of sprites is explicit
state passing (functions return the updated objects alongside results).
-/

/-- An axis-aligned `pygame.Rect`: integer position and size. -/
structure Rect where
  x : Int
  y : Int
  w : Int
  h : Int
deriving DecidableEq

/-- `pygame.Rect.colliderect`: the rectangles intersect
(`A.x < B.x + B.w and A.y < B.y + B.h and A.x + A.w > B.x and A.y + A.h > B.y`). -/
def collideRect (a b : Rect) : Prop :=
  a.x < b.x + b.w ∧ a.y < b.y + b.h ∧ a.x + a.w > b.x ∧ a.y + a.h > b.y

instance (a b : Rect) : Decidable (collideRect a b) := by
  unfold collideRect; infer_instance

/-- A pygame mask, represented by the list of coordinates of its opaque
pixels — exactly the data `pygame.mask.from_surface` extracts from a
surface. -/
structure Mask where
  pixels : List (Int × Int)
deriving DecidableEq

/-- `mask1.overlap(mask2, offset) is not None`: some opaque pixel `(x, y)` of
`mask1` coincides with opaque pixel `(x - off.1, y - off.2)` of `mask2`
placed at `offset`. -/
def maskOverlapB (m1 m2 : Mask) (off : Int × Int) : Bool :=
  m1.pixels.any fun p => decide ((p.1 - off.1, p.2 - off.2) ∈ m2.pixels)

/-- A pygame sprite as the collision code sees it. Python objects are
attribute bags, so one record carries every attribute the embedded code
reads or writes, whether it is used in player, enemy, projectile or powerup
role. `image` is the sprite's current visual footprint (its opaque pixels);
`mask` is the cached mask, with `none` standing both for a missing `mask`
attribute and for `None`; `alive` models pygame group membership
(`kill()` clears it). -/
structure Sprite where
  id : Nat
  rect : Rect
  image : Mask := ⟨[]⟩
  mask : Option Mask := none
  invincible : Bool := false
  invincibleTimer : Int := 0
  invincibleDuration : Int := 0
  isEnemyProjectile : Bool := false
  damage : Int := 0
  active : Bool := true
  ptype : String := ""
  health : Int := 0
  maxHealth : Int := 0
  currentHealth : Int := 0
  alive : Bool := true
  lastCollisionTime : Int := 0
  collisionCooldown : Int := 0
  flashEffect : Bool := false
  flashTimer : Int := 0
  flashColor : Option (Int × Int × Int) := none
  weaponBoostActive : Bool := false
  weaponBoostTimer : Int := 0
  weaponBoostDuration : Int := 0
  shotCooldown : ℚ := 0
  baseShotCooldown : ℚ := 0
  speedBoostActive : Bool := false
  speedBoostTimer : Int := 0
  speedBoostDuration : Int := 0
  speedBoostFactor : ℚ := 1
  movementSpeed : ℚ := 0
  baseMovementSpeed : ℚ := 0
  damageBoostActive : Bool := false
  damageBoostTimer : Int := 0
  damageBoostDuration : Int := 0
  damageBoostFactor : ℚ := 1
deriving DecidableEq

/-- pygame `Sprite.kill()`: the sprite leaves all groups. -/
def Sprite.kill (s : Sprite) : Sprite := { s with alive := false }

/-- `Player.start_flash_effect` / `Enemy.start_flash_effect`. -/
def Sprite.startFlashEffect (s : Sprite) (color : Int × Int × Int) (now : Int) : Sprite :=
  { s with flashEffect := true, flashTimer := now, flashColor := some color }

/-- `Enemy.take_damage`: subtract the amount, flash red, die (kill) once
health reaches 0 or below. -/
def Sprite.takeDamageEnemy (e : Sprite) (amount : Int) (now : Int) : Bool × Sprite :=
  let e := { e with health := e.health - amount }
  let e := e.startFlashEffect (255, 0, 0) now
  if e.health ≤ 0 then (true, e.kill) else (false, e)

/-- `Player.take_damage`: a no-op while invincible; otherwise subtract the
amount, open the invincibility window, flash red, and report death when
health reaches 0 or below. -/
def Sprite.takeDamagePlayer (p : Sprite) (amount : Int) (now : Int) : Bool × Sprite :=
  if ¬ p.invincible then
    let p := { p with currentHealth := p.currentHealth - amount,
                      invincible := true, invincibleTimer := now }
    let p := p.startFlashEffect (255, 0, 0) now
    if p.currentHealth ≤ 0 then (true, p) else (false, p)
  else (false, p)

/-- `Enemy.can_collide`: cooldown gate that also stamps the collision time
when it fires. -/
def Sprite.canCollide (e : Sprite) (now : Int) : Bool × Sprite :=
  if e.collisionCooldown < now - e.lastCollisionTime then
    (true, { e with lastCollisionTime := now })
  else (false, e)

/-- The mask `mask_collision` actually uses for a sprite: the cached one if
present, else one freshly derived from the current image. -/
def Sprite.effMask (s : Sprite) : Mask := s.mask.getD s.image

/-- The in-place update `mask_collision` performs on each argument: derive
and cache a mask from the current image only when none is present. -/
def Sprite.cacheMask (s : Sprite) : Sprite :=
  match s.mask with
  | none => { s with mask := some s.image }
  | some _ => s

/-- `mask_collision` (collision_handler.py): make sure both sprites carry a
mask, then test mask overlap at the offset of the two rects. The returned
sprites expose the in-place mask-caching mutation. -/
def mask_collision (s1 s2 : Sprite) : Bool × Sprite × Sprite :=
  let s1 := s1.cacheMask
  let s2 := s2.cacheMask
  let offset := (s2.rect.x - s1.rect.x, s2.rect.y - s1.rect.y)
  (maskOverlapB s1.effMask s2.effMask offset, s1, s2)

/-- The boolean `mask_collision` computes, as a pure function of the two
sprites. -/
def maskHit (s1 s2 : Sprite) : Bool :=
  maskOverlapB s1.effMask s2.effMask (s2.rect.x - s1.rect.x, s2.rect.y - s1.rect.y)

/-- `handle_player_enemy_collision`: gated by the enemy's own collision
cooldown; when the gate passes, applies `enemy.damage` through
`Player.take_damage`. Returns (player died, updated player, updated enemy). -/
def handle_player_enemy_collision (player enemy : Sprite) (now : Int) :
    Bool × Sprite × Sprite :=
  let c := enemy.canCollide now
  if c.1 = false then (false, player, c.2)
  else
    let r := player.takeDamagePlayer enemy.damage now
    (r.1, r.2, c.2)

/-- `handle_projectile_enemy_collision`: kill the projectile unconditionally
and apply its damage to the enemy. Returns (enemy died, updated projectile,
updated enemy). -/
def handle_projectile_enemy_collision (projectile enemy : Sprite) (now : Int) :
    Bool × Sprite × Sprite :=
  let projectile := projectile.kill
  let r := enemy.takeDamageEnemy projectile.damage now
  (r.1, projectile, r.2)

/-- `handle_enemy_projectile_player_collision`: kill the projectile
unconditionally and apply its damage to the player. Returns (player died,
updated player, updated projectile). -/
def handle_enemy_projectile_player_collision (player projectile : Sprite) (now : Int) :
    Bool × Sprite × Sprite :=
  let projectile := projectile.kill
  let r := player.takeDamagePlayer projectile.damage now
  (r.1, r.2, projectile)

/-- The config values `Powerup.apply_effect` and the player boost methods
read from `managers.config` (shown with the source's defaults). `colorOf`
models `config.get_color`. -/
structure Config where
  healthRestore : Int := 25
  shieldDuration : Int := 5000
  weaponBoost : ℚ := 2
  weaponDuration : Int := 5000
  speedBoost : ℚ := 5 / 4
  speedDuration : Int := 5000
  damageBoost : ℚ := 3 / 2
  damageDuration : Int := 5000
  colorOf : String → Int × Int × Int := fun _ => (255, 255, 255)

/-- `Player.activate_weapon_boost`. -/
def Sprite.activateWeaponBoost (p : Sprite) (cfg : Config) (boost : ℚ)
    (duration now : Int) : Sprite :=
  let p := { p with weaponBoostActive := true, weaponBoostTimer := now,
                    weaponBoostDuration := duration,
                    shotCooldown := p.baseShotCooldown / boost }
  p.startFlashEffect (cfg.colorOf "yellow") now

/-- `Player.activate_speed_boost`. -/
def Sprite.activateSpeedBoost (p : Sprite) (cfg : Config) (boost : ℚ)
    (duration now : Int) : Sprite :=
  let p := { p with speedBoostActive := true, speedBoostTimer := now,
                    speedBoostDuration := duration, speedBoostFactor := boost,
                    movementSpeed := p.baseMovementSpeed * boost }
  p.startFlashEffect (cfg.colorOf "yellow") now

/-- `Player.activate_damage_boost`. -/
def Sprite.activateDamageBoost (p : Sprite) (cfg : Config) (boost : ℚ)
    (duration now : Int) : Sprite :=
  let p := { p with damageBoostActive := true, damageBoostTimer := now,
                    damageBoostDuration := duration, damageBoostFactor := boost }
  p.startFlashEffect (cfg.colorOf "magenta") now

/-- `Powerup.deactivate`. -/
def Sprite.deactivate (p : Sprite) : Sprite := { p with active := false }

/-- `Powerup.apply_effect`: a no-op returning false on an inactive powerup;
otherwise apply the type-specific effect to the player, deactivate the
powerup, and return true. Returns (result, updated powerup, updated player). -/
def Sprite.applyEffect (powerup player : Sprite) (cfg : Config) (now : Int) :
    Bool × Sprite × Sprite :=
  if powerup.active = false then (false, powerup, player)
  else
    let player :=
      if powerup.ptype = "health" then
        let newHealth := min (player.currentHealth + cfg.healthRestore) player.maxHealth
        { player with currentHealth := newHealth }
      else if powerup.ptype = "shield" then
        { player with invincible := true, invincibleTimer := now,
                      invincibleDuration := cfg.shieldDuration }
      else if powerup.ptype = "weapon" then
        player.activateWeaponBoost cfg cfg.weaponBoost cfg.weaponDuration now
      else if powerup.ptype = "speed" then
        player.activateSpeedBoost cfg cfg.speedBoost cfg.speedDuration now
      else if powerup.ptype = "damage" then
        player.activateDamageBoost cfg cfg.damageBoost cfg.damageDuration now
      else player
    (true, powerup.deactivate, player)

/-- `handle_player_powerup_collision`: flash the player with the powerup's
configured colour, then apply the effect. Returns (result, updated player,
updated powerup). -/
def handle_player_powerup_collision (player powerup : Sprite) (cfg : Config)
    (now : Int) : Bool × Sprite × Sprite :=
  let player := player.startFlashEffect (cfg.colorOf powerup.ptype) now
  let r := powerup.applyEffect player cfg now
  (r.1, r.2.2, r.2.1)

/-- Python `range(a, b)` over integers. -/
def pyRange (a b : Int) : List Int :=
  (List.range (b - a).toNat).map fun i => a + Int.ofNat i

/-- `SpatialHashGrid._get_cells_for_rect`: every cell key the rectangle
occupies, from `rect.left // cell_size` to `rect.right // cell_size` and
`rect.top // cell_size` to `rect.bottom // cell_size`, all inclusive
(`left = x`, `right = x + w`, `top = y`, `bottom = y + h`). -/
def cellsForRect (cellSize : Int) (r : Rect) : List (Int × Int) :=
  let startX := Int.fdiv r.x cellSize
  let endX := Int.fdiv (r.x + r.w) cellSize
  let startY := Int.fdiv r.y cellSize
  let endY := Int.fdiv (r.y + r.h) cellSize
  (pyRange startX (endX + 1)).flatMap fun cx =>
    (pyRange startY (endY + 1)).map fun cy => (cx, cy)

/-- `SpatialHashGrid`: the dict from cell key to the list of sprites in that
cell is an association list with at most one entry per key. -/
structure SpatialHashGrid where
  cellSize : Int
  width : Int
  height : Int
  grid : List ((Int × Int) × List Sprite)
deriving DecidableEq

/-- `SpatialHashGrid.__init__`: stores the dimensions and cell size (no
validation of any kind) and starts with an empty dict. -/
def SpatialHashGrid.init (width height cellSize : Int) : SpatialHashGrid :=
  { cellSize := cellSize, width := width, height := height, grid := [] }

/-- `SpatialHashGrid.clear`. -/
def SpatialHashGrid.clear (g : SpatialHashGrid) : SpatialHashGrid :=
  { g with grid := [] }

/-- One step of `SpatialHashGrid.insert`'s loop body: `if key not in
self.grid: self.grid[key] = []` followed by `self.grid[key].append(sprite)`. -/
def bucketAdd : List ((Int × Int) × List Sprite) → (Int × Int) → Sprite →
    List ((Int × Int) × List Sprite)
  | [], k, s => [(k, [s])]
  | (k', l) :: rest, k, s =>
    if k' = k then (k', l ++ [s]) :: rest else (k', l) :: bucketAdd rest k s

/-- Dict lookup with the `if key in self.grid` guard folded in: a missing
key reads as the empty cell. -/
def bucketGet : List ((Int × Int) × List Sprite) → (Int × Int) → List Sprite
  | [], _ => []
  | (k', l) :: rest, k => if k' = k then l else bucketGet rest k

/-- `SpatialHashGrid.insert`: append the sprite to every cell its rect
occupies. -/
def SpatialHashGrid.insert (g : SpatialHashGrid) (s : Sprite) : SpatialHashGrid :=
  { g with grid := (cellsForRect g.cellSize s.rect).foldl (fun gr k => bucketAdd gr k s) g.grid }

/-- A frame's worth of insertions, in order. -/
def SpatialHashGrid.insertAll (g : SpatialHashGrid) (l : List Sprite) : SpatialHashGrid :=
  l.foldl SpatialHashGrid.insert g

/-- Python `set.add` on a list kept duplicate-free. -/
def setAdd (l : List Sprite) (s : Sprite) : List Sprite :=
  if s ∈ l then l else l ++ [s]

/-- `SpatialHashGrid.retrieve`: union the occupied cells' contents into a
set, skipping the queried sprite itself, and return it as a list. -/
def SpatialHashGrid.retrieve (g : SpatialHashGrid) (sprite : Sprite) : List Sprite :=
  (cellsForRect g.cellSize sprite.rect).foldl
    (fun acc k =>
      (bucketGet g.grid k).foldl
        (fun acc2 p => if p ≠ sprite then setAdd acc2 p else acc2) acc)
    []

/-- `QuadTree.get_index`: classify a rect into one of the four child
quadrants (0 top-left, 1 top-right, 2 bottom-left, 3 bottom-right), or -1
when it does not fit entirely inside a single one. The source compares the
integer rect coordinates against the float midpoints `x + width / 2` and
`y + height / 2` (exact in IEEE doubles for screen-scale integers); an
integer `a` satisfies `a < x + w / 2` exactly when `2 * a < 2 * x + w`, so
the comparisons are encoded exactly by doubling. -/
def getIndex (bounds : Rect) (r : Rect) : Int :=
  let vMid2 := 2 * bounds.x + bounds.w
  let hMid2 := 2 * bounds.y + bounds.h
  let topQ : Bool := decide (2 * r.y < hMid2 ∧ 2 * (r.y + r.h) < hMid2)
  let bottomQ : Bool := decide (2 * r.y > hMid2)
  if 2 * r.x < vMid2 ∧ 2 * (r.x + r.w) < vMid2 then
    if topQ then 0 else if bottomQ then 2 else -1
  else if 2 * r.x > vMid2 then
    if topQ then 1 else if bottomQ then 3 else -1
  else -1

/-- `QuadTree`: a node with its bounds, parameters, level, stored objects
and children. In the source `self.nodes` is always either empty or exactly
four nodes (`divide` appends four, `clear` empties the list) with
`is_divided` tracking which; `children` as an optional quadruple encodes
exactly those two reachable shapes. -/
inductive QuadTree where
  | mk (bounds : Rect) (maxObjects maxLevels level : Int)
      (objects : List Sprite)
      (children : Option (QuadTree × QuadTree × QuadTree × QuadTree))

def QuadTree.bounds : QuadTree → Rect
  | .mk b _ _ _ _ _ => b

def QuadTree.maxObjects : QuadTree → Int
  | .mk _ mo _ _ _ _ => mo

def QuadTree.maxLevels : QuadTree → Int
  | .mk _ _ ml _ _ _ => ml

def QuadTree.level : QuadTree → Int
  | .mk _ _ _ lv _ _ => lv

def QuadTree.objects : QuadTree → List Sprite
  | .mk _ _ _ _ os _ => os

/-- `QuadTree.__init__`: stores the bounds and parameters (no validation of
any kind), starting undivided and empty. Source defaults: `max_objects=10`,
`max_levels=4`, `level=0`. -/
def QuadTree.init (bounds : Rect) (maxObjects maxLevels level : Int) : QuadTree :=
  .mk bounds maxObjects maxLevels level [] none

/-- `QuadTree.clear`: drop all objects and children. -/
def QuadTree.clear : QuadTree → QuadTree
  | .mk b mo ml lv _ _ => .mk b mo ml lv [] none

/-- The four fresh children `QuadTree.divide` creates: integer half sizes
(`//`), one level deeper. -/
def QuadTree.freshChildren (b : Rect) (mo ml lv : Int) :
    QuadTree × QuadTree × QuadTree × QuadTree :=
  let sw := Int.fdiv b.w 2
  let sh := Int.fdiv b.h 2
  (QuadTree.init ⟨b.x, b.y, sw, sh⟩ mo ml (lv + 1),
   QuadTree.init ⟨b.x + sw, b.y, sw, sh⟩ mo ml (lv + 1),
   QuadTree.init ⟨b.x, b.y + sh, sw, sh⟩ mo ml (lv + 1),
   QuadTree.init ⟨b.x + sw, b.y + sh, sw, sh⟩ mo ml (lv + 1))

/-- `QuadTree.retrieve(potential_collisions, sprite)`: recurse into the one
child quadrant the sprite fits in; when the sprite straddles, recurse into
every child whose recorded bounds collide with the sprite's rect; finally
append this node's own objects to the accumulator. -/
def QuadTree.retrieve : QuadTree → List Sprite → Sprite → List Sprite
  | .mk _ _ _ _ objects none, acc, _ => acc ++ objects
  | .mk bounds _ _ _ objects (some (c0, c1, c2, c3)), acc, s =>
    let index := getIndex bounds s.rect
    let acc :=
      if index ≠ -1 then
        if index = 0 then c0.retrieve acc s
        else if index = 1 then c1.retrieve acc s
        else if index = 2 then c2.retrieve acc s
        else c3.retrieve acc s
      else
        let acc := if collideRect c0.bounds s.rect then c0.retrieve acc s else acc
        let acc := if collideRect c1.bounds s.rect then c1.retrieve acc s else acc
        let acc := if collideRect c2.bounds s.rect then c2.retrieve acc s else acc
        if collideRect c3.bounds s.rect then c3.retrieve acc s else acc
    acc ++ objects

/-- `QuadTree.insert`, with explicit recursion fuel. In the source the
recursion depth is bounded because a node only divides while
`level < max_levels` and children sit one level deeper, so any fuel of at
least `max_levels - level + 1` reproduces the source behaviour exactly
(the fuel-0 branch is then unreachable). -/
def QuadTree.insertAux : Nat → QuadTree → Sprite → QuadTree
  | 0, t, _ => t
  | fuel + 1, .mk bounds mo ml lv objects (some (c0, c1, c2, c3)), s =>
    let index := getIndex bounds s.rect
    if index = 0 then
      .mk bounds mo ml lv objects (some (QuadTree.insertAux fuel c0 s, c1, c2, c3))
    else if index = 1 then
      .mk bounds mo ml lv objects (some (c0, QuadTree.insertAux fuel c1 s, c2, c3))
    else if index = 2 then
      .mk bounds mo ml lv objects (some (c0, c1, QuadTree.insertAux fuel c2 s, c3))
    else if index = 3 then
      .mk bounds mo ml lv objects (some (c0, c1, c2, QuadTree.insertAux fuel c3 s))
    else .mk bounds mo ml lv (objects ++ [s]) (some (c0, c1, c2, c3))
  | fuel + 1, .mk bounds mo ml lv objects none, s =>
    let objects := objects ++ [s]
    if (objects.length : Int) > mo ∧ lv < ml then
      let res := objects.foldl
        (fun (st : List Sprite × (QuadTree × QuadTree × QuadTree × QuadTree)) o =>
          let i := getIndex bounds o.rect
          if i = 0 then
            (st.1, (QuadTree.insertAux fuel st.2.1 o, st.2.2.1, st.2.2.2.1, st.2.2.2.2))
          else if i = 1 then
            (st.1, (st.2.1, QuadTree.insertAux fuel st.2.2.1 o, st.2.2.2.1, st.2.2.2.2))
          else if i = 2 then
            (st.1, (st.2.1, st.2.2.1, QuadTree.insertAux fuel st.2.2.2.1 o, st.2.2.2.2))
          else if i = 3 then
            (st.1, (st.2.1, st.2.2.1, st.2.2.2.1, QuadTree.insertAux fuel st.2.2.2.2 o))
          else (st.1 ++ [o], st.2))
        ([], QuadTree.freshChildren bounds mo ml lv)
      .mk bounds mo ml lv res.1 (some res.2)
    else .mk bounds mo ml lv objects none

/-- `QuadTree.insert`. -/
def QuadTree.insert (t : QuadTree) (s : Sprite) : QuadTree :=
  QuadTree.insertAux ((t.maxLevels - t.level).toNat + 1) t s

/-- The two spatial structures a `CollisionSystem` can hold. -/
inductive SpatialStructure where
  | quad (t : QuadTree)
  | hash (g : SpatialHashGrid)

def SpatialStructure.clear : SpatialStructure → SpatialStructure
  | .quad t => .quad t.clear
  | .hash g => .hash g.clear

def SpatialStructure.insert : SpatialStructure → Sprite → SpatialStructure
  | .quad t, s => .quad (t.insert s)
  | .hash g, s => .hash (g.insert s)

/-- `CollisionSystem`. -/
structure CollisionSystem where
  algorithm : String
  screenWidth : Int
  screenHeight : Int
  spatialStructure : SpatialStructure

/-- `CollisionSystem.QUADTREE`. -/
def CollisionSystem.QUADTREE : String := "quadtree"

/-- `CollisionSystem.SPATIAL_HASH`. -/
def CollisionSystem.SPATIAL_HASH : String := "spatial_hash"

/-- `CollisionSystem.__init__`: a QuadTree over the whole screen with the
source's default parameters, or a SpatialHashGrid with the given cell size.
No validation of any argument. -/
def CollisionSystem.init (screenWidth screenHeight : Int) (algorithm : String)
    (cellSize : Int) : CollisionSystem :=
  { algorithm := algorithm, screenWidth := screenWidth, screenHeight := screenHeight,
    spatialStructure :=
      if algorithm = CollisionSystem.QUADTREE then
        .quad (QuadTree.init ⟨0, 0, screenWidth, screenHeight⟩ 10 4 0)
      else .hash (SpatialHashGrid.init screenWidth screenHeight cellSize) }

/-- `CollisionSystem.update`: clear the spatial structure, then insert all
projectiles, all enemies, all powerups, and finally the player. -/
def CollisionSystem.update (cs : CollisionSystem)
    (projectileGroup enemyGroup : List Sprite) (player : Sprite)
    (powerupGroup : List Sprite) : CollisionSystem :=
  let st := cs.spatialStructure.clear
  let st := projectileGroup.foldl SpatialStructure.insert st
  let st := enemyGroup.foldl SpatialStructure.insert st
  let st := powerupGroup.foldl SpatialStructure.insert st
  { cs with spatialStructure := st.insert player }

/-- The broad-phase retrieval every query method performs: the QuadTree
branch passes a fresh list to `retrieve` and the hash branch calls the
grid's `retrieve`. On an algorithm/structure mismatch (unreachable from
`CollisionSystem.init`; Python would raise there) the result is empty. -/
def CollisionSystem.retrieveFor (cs : CollisionSystem) (s : Sprite) : List Sprite :=
  if cs.algorithm = CollisionSystem.QUADTREE then
    match cs.spatialStructure with
    | .quad t => t.retrieve [] s
    | .hash _ => []
  else
    match cs.spatialStructure with
    | .hash g => g.retrieve s
    | .quad _ => []

/-- The narrow-phase loop the enemy and projectile queries share:
`for x in potential: if mask_collision(a, x): hits.append(x)`, with the
mask-cache mutation threaded through; hits are returned in their post-call
state. Returns (hits, updated a). -/
def hitScan (a : Sprite) : List Sprite → List Sprite × Sprite
  | [] => ([], a)
  | e :: rest =>
    let r := mask_collision a e
    let res := hitScan r.2.1 rest
    (if r.1 then r.2.2 :: res.1 else res.1, res.2)

/-- The powerup variant of the loop: a hit additionally requires the
powerup to be active. -/
def powerupScan (a : Sprite) : List Sprite → List Sprite × Sprite
  | [] => ([], a)
  | p :: rest =>
    let r := mask_collision a p
    let res := powerupScan r.2.1 rest
    (if r.1 && r.2.2.active then r.2.2 :: res.1 else res.1, res.2)

/-- `CollisionSystem.check_projectile_enemy_collisions`: only player
projectiles are considered; for each, broad-phase retrieval is filtered to
members of the enemy group, then the narrow phase confirms hits; a
projectile with no confirmed hit contributes no entry. The Python dict is
an association list in insertion order. -/
def CollisionSystem.checkProjectileEnemyCollisions (cs : CollisionSystem)
    (projectileGroup enemyGroup : List Sprite) : List (Sprite × List Sprite) :=
  let playerProjectiles := projectileGroup.filter fun p => !p.isEnemyProjectile
  playerProjectiles.foldl
    (fun collisions projectile =>
      let potential := (cs.retrieveFor projectile).filter
        fun sprite => decide (sprite ∈ enemyGroup)
      let scan := hitScan projectile potential
      if scan.1 ≠ [] then collisions ++ [(scan.2, scan.1)] else collisions)
    []

/-- `CollisionSystem.check_enemy_projectile_player_collision`: empty when
the player is invincible; otherwise the narrow phase runs over the
retrieved enemy projectiles. Returns (projectiles hit, updated player). -/
def CollisionSystem.checkEnemyProjectilePlayerCollision (cs : CollisionSystem)
    (player : Sprite) (projectileGroup : List Sprite) : List Sprite × Sprite :=
  if player.invincible then ([], player)
  else
    let enemyProjectiles := projectileGroup.filter fun p => p.isEnemyProjectile
    let potential := (cs.retrieveFor player).filter
      fun p => decide (p ∈ enemyProjectiles)
    hitScan player potential

/-- `CollisionSystem.check_player_enemy_collisions`: empty when the player
is invincible; otherwise the narrow phase runs over the retrieved enemies.
Returns (enemies hit, updated player). -/
def CollisionSystem.checkPlayerEnemyCollisions (cs : CollisionSystem)
    (player : Sprite) (enemyGroup : List Sprite) : List Sprite × Sprite :=
  if player.invincible then ([], player)
  else
    let potential := (cs.retrieveFor player).filter fun s => decide (s ∈ enemyGroup)
    hitScan player potential

/-- `CollisionSystem.check_player_powerup_collisions`: no invincibility
gate; a hit additionally requires `powerup.active`. Returns (powerups hit,
updated player). -/
def CollisionSystem.checkPlayerPowerupCollisions (cs : CollisionSystem)
    (player : Sprite) (powerupGroup : List Sprite) : List Sprite × Sprite :=
  let potential := (cs.retrieveFor player).filter fun s => decide (s ∈ powerupGroup)
  powerupScan player potential

def c1Obj : Sprite := { id := 1, rect := ⟨60, 0, 100, 10⟩ }

def c1Query : Sprite := { id := 2, rect := ⟨120, 0, 5, 100⟩ }

def c1Tree : QuadTree :=
  ((QuadTree.init ⟨0, 0, 100, 100⟩ 1 4 0).insert c1Obj).insert c1Query

def c1GridA : Sprite := { id := 3, rect := ⟨0, 0, 10, 10⟩ }

def c1GridB : Sprite := { id := 4, rect := ⟨5, 5, 10, 10⟩ }

def c2Obj : Sprite := { id := 5, rect := ⟨10, 10, 20, 20⟩ }

def c2Tree : QuadTree := (QuadTree.init ⟨0, 0, 800, 600⟩ 10 4 0).insert c2Obj

def c4Stale : Sprite :=
  { id := 6, rect := ⟨0, 0, 1, 1⟩, image := ⟨[(0, 0)]⟩, mask := some ⟨[]⟩ }

def c4Fresh : Sprite := { id := 7, rect := ⟨0, 0, 1, 1⟩, image := ⟨[(0, 0)]⟩ }

def c4CohA : Sprite := { id := 11, rect := ⟨0, 0, 1, 1⟩, image := ⟨[(0, 0)]⟩ }

def c4CohB : Sprite :=
  { id := 12, rect := ⟨0, 0, 1, 1⟩, image := ⟨[(0, 0)]⟩, mask := some ⟨[(0, 0)]⟩ }

def c5Player : Sprite := { id := 30, rect := ⟨10, 10, 5, 5⟩, invincible := true }

def c5Enemy : Sprite := { id := 31, rect := ⟨10, 10, 5, 5⟩, image := ⟨[(0, 0)]⟩ }

def c5Cs : CollisionSystem :=
  (CollisionSystem.init 800 600 CollisionSystem.SPATIAL_HASH 64).update
    [] [c5Enemy] c5Player []

def c6Powerup : Sprite :=
  { id := 35, rect := ⟨10, 10, 5, 5⟩, image := ⟨[(0, 0)]⟩, ptype := "health" }

def c6Player : Sprite :=
  { id := 36, rect := ⟨10, 10, 5, 5⟩, image := ⟨[(0, 0)]⟩,
    currentHealth := 50, maxHealth := 100 }

def c7Enemy : Sprite := { id := 32, rect := ⟨0, 0, 1, 1⟩, health := 5 }

def c7Proj5 : Sprite := { id := 33, rect := ⟨0, 0, 1, 1⟩, damage := 5 }

def c7Proj4 : Sprite := { id := 34, rect := ⟨0, 0, 1, 1⟩, damage := 4 }

def c8Proj : Sprite := { id := 20, rect := ⟨10, 10, 5, 5⟩, image := ⟨[(0, 0)]⟩ }

def c8Enemy : Sprite := { id := 21, rect := ⟨10, 10, 5, 5⟩, image := ⟨[(0, 0)]⟩ }

def c8Player : Sprite := { id := 22, rect := ⟨500, 500, 5, 5⟩, image := ⟨[(0, 0)]⟩ }

def c8Cs : CollisionSystem :=
  (CollisionSystem.init 800 600 CollisionSystem.SPATIAL_HASH 64).update
    [c8Proj] [c8Enemy] c8Player []

def c8Entry : Sprite × List Sprite := (c8Proj.cacheMask, [c8Enemy.cacheMask])

def c9Player : Sprite := { id := 40, rect := ⟨0, 0, 5, 5⟩, currentHealth := 100 }

def c9Enemy : Sprite :=
  { id := 41, rect := ⟨0, 0, 5, 5⟩, damage := 10,
    collisionCooldown := 1000, lastCollisionTime := 0 }

def c10Player : Sprite :=
  { id := 42, rect := ⟨0, 0, 5, 5⟩, invincible := true, currentHealth := 50 }

def c10Proj : Sprite :=
  { id := 43, rect := ⟨0, 0, 5, 5⟩, damage := 99, isEnemyProjectile := true }

@[simp] theorem cacheMask_effMask (s : Sprite) : s.cacheMask.effMask = s.effMask := by
  unfold Sprite.cacheMask Sprite.effMask
  cases h : s.mask <;> simp [h]

@[simp] theorem cacheMask_rect (s : Sprite) : s.cacheMask.rect = s.rect := by
  unfold Sprite.cacheMask; cases s.mask <;> rfl

@[simp] theorem cacheMask_id (s : Sprite) : s.cacheMask.id = s.id := by
  unfold Sprite.cacheMask; cases s.mask <;> rfl

@[simp] theorem cacheMask_image (s : Sprite) : s.cacheMask.image = s.image := by
  unfold Sprite.cacheMask; cases s.mask <;> rfl

@[simp] theorem cacheMask_active (s : Sprite) : s.cacheMask.active = s.active := by
  unfold Sprite.cacheMask; cases s.mask <;> rfl

@[simp] theorem cacheMask_isEnemyProjectile (s : Sprite) :
    s.cacheMask.isEnemyProjectile = s.isEnemyProjectile := by
  unfold Sprite.cacheMask; cases s.mask <;> rfl

@[simp] theorem maskHit_cacheMask_left (a e : Sprite) :
    maskHit a.cacheMask e = maskHit a e := by
  unfold maskHit; simp

@[simp] theorem maskHit_cacheMask_right (a e : Sprite) :
    maskHit a (e.cacheMask) = maskHit a e := by
  unfold maskHit; simp

theorem mask_collision_eq (s1 s2 : Sprite) :
    mask_collision s1 s2 = (maskHit s1 s2, s1.cacheMask, s2.cacheMask) := by
  unfold mask_collision maskHit
  simp

theorem mem_pyRange {a b x : Int} : x ∈ pyRange a b ↔ a ≤ x ∧ x < b := by
  unfold pyRange
  rw [List.mem_map]
  constructor
  · rintro ⟨i, hi, rfl⟩
    rw [List.mem_range] at hi
    simp only [Int.ofNat_eq_coe]
    omega
  · intro h
    refine ⟨(x - a).toNat, ?_, ?_⟩
    · rw [List.mem_range]
      omega
    · simp only [Int.ofNat_eq_coe]
      omega

theorem mem_cellsForRect {cellSize : Int} {r : Rect} {k : Int × Int} :
    k ∈ cellsForRect cellSize r ↔
      (Int.fdiv r.x cellSize ≤ k.1 ∧ k.1 ≤ Int.fdiv (r.x + r.w) cellSize) ∧
      (Int.fdiv r.y cellSize ≤ k.2 ∧ k.2 ≤ Int.fdiv (r.y + r.h) cellSize) := by
  unfold cellsForRect
  simp only [List.mem_flatMap, List.mem_map]
  constructor
  · rintro ⟨cx, hcx, cy, hcy, rfl⟩
    rw [mem_pyRange] at hcx hcy
    exact ⟨⟨hcx.1, by omega⟩, ⟨hcy.1, by omega⟩⟩
  · rintro ⟨⟨h1, h2⟩, ⟨h3, h4⟩⟩
    exact ⟨k.1, mem_pyRange.mpr ⟨h1, by omega⟩, k.2, mem_pyRange.mpr ⟨h3, by omega⟩, rfl⟩

theorem bucketGet_bucketAdd_same (gr : List ((Int × Int) × List Sprite))
    (k : Int × Int) (s : Sprite) :
    bucketGet (bucketAdd gr k s) k = bucketGet gr k ++ [s] := by
  induction gr with
  | nil => simp [bucketAdd, bucketGet]
  | cons e rest ih =>
    obtain ⟨k', l⟩ := e
    by_cases h : k' = k
    · simp [bucketAdd, bucketGet, h]
    · simp [bucketAdd, bucketGet, h, ih]

theorem bucketGet_bucketAdd_other (gr : List ((Int × Int) × List Sprite))
    {k k' : Int × Int} (s : Sprite) (hne : k' ≠ k) :
    bucketGet (bucketAdd gr k s) k' = bucketGet gr k' := by
  induction gr with
  | nil =>
    simp only [bucketAdd, bucketGet]
    rw [if_neg (fun h => hne h.symm)]
  | cons e rest ih =>
    obtain ⟨k0, l⟩ := e
    by_cases h : k0 = k
    · subst h
      simp only [bucketAdd, if_pos rfl, bucketGet]
      rw [if_neg (fun h => hne h.symm), if_neg (fun h => hne h.symm)]
    · simp only [bucketAdd, if_neg h, bucketGet]
      by_cases h' : k0 = k'
      · rw [if_pos h', if_pos h']
      · rw [if_neg h', if_neg h', ih]

theorem bucketGet_foldl_mono {ks : List (Int × Int)}
    {gr : List ((Int × Int) × List Sprite)} {k : Int × Int} {p s : Sprite}
    (h : p ∈ bucketGet gr k) :
    p ∈ bucketGet (ks.foldl (fun acc kk => bucketAdd acc kk s) gr) k := by
  induction ks generalizing gr with
  | nil => exact h
  | cons k0 rest ih =>
    apply ih
    by_cases hk : k = k0
    · subst hk
      rw [bucketGet_bucketAdd_same]
      exact List.mem_append_left _ h
    · rw [bucketGet_bucketAdd_other _ _ (fun hh => hk hh)]
      exact h

theorem bucketGet_foldl_self {ks : List (Int × Int)}
    {gr : List ((Int × Int) × List Sprite)} {k : Int × Int} {s : Sprite}
    (h : k ∈ ks) :
    s ∈ bucketGet (ks.foldl (fun acc kk => bucketAdd acc kk s) gr) k := by
  induction ks generalizing gr with
  | nil => cases h
  | cons k0 rest ih =>
    simp only [List.foldl_cons]
    rcases List.mem_cons.mp h with rfl | h'
    · apply bucketGet_foldl_mono
      rw [bucketGet_bucketAdd_same]
      exact List.mem_append_right _ (List.mem_singleton.mpr rfl)
    · exact ih h'

theorem insert_mem_bucketGet (g : SpatialHashGrid) (s : Sprite) {k : Int × Int}
    (hk : k ∈ cellsForRect g.cellSize s.rect) :
    s ∈ bucketGet (g.insert s).grid k :=
  bucketGet_foldl_self hk

theorem insert_bucketGet_mono (g : SpatialHashGrid) (s : Sprite) {k : Int × Int}
    {p : Sprite} (h : p ∈ bucketGet g.grid k) :
    p ∈ bucketGet (g.insert s).grid k :=
  bucketGet_foldl_mono h

@[simp] theorem insert_cellSize (g : SpatialHashGrid) (s : Sprite) :
    (g.insert s).cellSize = g.cellSize := rfl

@[simp] theorem insertAll_cellSize (g : SpatialHashGrid) (l : List Sprite) :
    (g.insertAll l).cellSize = g.cellSize := by
  unfold SpatialHashGrid.insertAll
  induction l generalizing g with
  | nil => rfl
  | cons a rest ih => simpa using ih (g.insert a)

theorem insertAll_bucketGet_mono (g : SpatialHashGrid) (l : List Sprite)
    {k : Int × Int} {p : Sprite} (h : p ∈ bucketGet g.grid k) :
    p ∈ bucketGet (g.insertAll l).grid k := by
  unfold SpatialHashGrid.insertAll
  induction l generalizing g with
  | nil => exact h
  | cons a rest ih =>
    simp only [List.foldl_cons]
    exact ih (g.insert a) (insert_bucketGet_mono g a h)

theorem insertAll_mem_bucketGet (g : SpatialHashGrid) {l : List Sprite}
    {s : Sprite} (hs : s ∈ l) {k : Int × Int}
    (hk : k ∈ cellsForRect g.cellSize s.rect) :
    s ∈ bucketGet (g.insertAll l).grid k := by
  induction l generalizing g with
  | nil => cases hs
  | cons a rest ih =>
    have hstep : SpatialHashGrid.insertAll g (a :: rest) =
        SpatialHashGrid.insertAll (g.insert a) rest := by
      unfold SpatialHashGrid.insertAll
      simp only [List.foldl_cons]
    rw [hstep]
    rcases List.mem_cons.mp hs with rfl | h'
    · exact insertAll_bucketGet_mono (g.insert s) rest (insert_mem_bucketGet g s hk)
    · exact ih (g.insert a) h' (by simpa using hk)

theorem mem_setAdd {l : List Sprite} {s x : Sprite} :
    x ∈ setAdd l s ↔ x ∈ l ∨ x = s := by
  unfold setAdd
  by_cases h : s ∈ l
  · rw [if_pos h]
    constructor
    · exact Or.inl
    · rintro (hx | rfl)
      · exact hx
      · exact h
  · rw [if_neg h, List.mem_append, List.mem_singleton]

theorem setAdd_nodup {l : List Sprite} (s : Sprite) (h : l.Nodup) :
    (setAdd l s).Nodup := by
  unfold setAdd
  by_cases hs : s ∈ l
  · rwa [if_pos hs]
  · rw [if_neg hs, ← List.concat_eq_append]
    exact List.Nodup.concat hs h

theorem cellScan_mem_mono (sprite : Sprite) (bucket : List Sprite)
    {acc : List Sprite} {x : Sprite} (hx : x ∈ acc) :
    x ∈ bucket.foldl (fun acc2 p => if p ≠ sprite then setAdd acc2 p else acc2) acc := by
  induction bucket generalizing acc with
  | nil => exact hx
  | cons b rest ih =>
    simp only [List.foldl_cons]
    apply ih
    by_cases hb : b ≠ sprite
    · rw [if_pos hb]
      exact mem_setAdd.mpr (Or.inl hx)
    · rwa [if_neg hb]

theorem cellScan_mem_self (sprite : Sprite) {bucket : List Sprite}
    {acc : List Sprite} {p : Sprite} (hp : p ∈ bucket) (hne : p ≠ sprite) :
    p ∈ bucket.foldl (fun acc2 q => if q ≠ sprite then setAdd acc2 q else acc2) acc := by
  induction bucket generalizing acc with
  | nil => cases hp
  | cons b rest ih =>
    simp only [List.foldl_cons]
    rcases List.mem_cons.mp hp with rfl | h'
    · apply cellScan_mem_mono
      rw [if_pos hne]
      exact mem_setAdd.mpr (Or.inr rfl)
    · exact ih h'

theorem cellScan_inv (sprite : Sprite) (bucket : List Sprite)
    {acc : List Sprite} (hacc : (∀ x ∈ acc, x ≠ sprite) ∧ acc.Nodup) :
    (∀ x ∈ bucket.foldl (fun acc2 p => if p ≠ sprite then setAdd acc2 p else acc2) acc,
      x ≠ sprite) ∧
    (bucket.foldl (fun acc2 p => if p ≠ sprite then setAdd acc2 p else acc2) acc).Nodup := by
  induction bucket generalizing acc with
  | nil => exact hacc
  | cons b rest ih =>
    simp only [List.foldl_cons]
    apply ih
    by_cases hb : b ≠ sprite
    · rw [if_pos hb]
      constructor
      · intro x hx
        rcases mem_setAdd.mp hx with h | rfl
        · exact hacc.1 x h
        · exact hb
      · exact setAdd_nodup b hacc.2
    · rwa [if_neg hb]

theorem retrieveFold_mem_mono (g : SpatialHashGrid) (sprite : Sprite)
    (cells : List (Int × Int)) {acc : List Sprite} {x : Sprite} (hx : x ∈ acc) :
    x ∈ cells.foldl
      (fun acc k =>
        (bucketGet g.grid k).foldl
          (fun acc2 p => if p ≠ sprite then setAdd acc2 p else acc2) acc) acc := by
  induction cells generalizing acc with
  | nil => exact hx
  | cons k0 rest ih =>
    simp only [List.foldl_cons]
    exact ih (cellScan_mem_mono sprite _ hx)

theorem retrieveFold_mem_self (g : SpatialHashGrid) (sprite : Sprite)
    {cells : List (Int × Int)} {acc : List Sprite} {k : Int × Int} {p : Sprite}
    (hk : k ∈ cells) (hp : p ∈ bucketGet g.grid k) (hne : p ≠ sprite) :
    p ∈ cells.foldl
      (fun acc k =>
        (bucketGet g.grid k).foldl
          (fun acc2 q => if q ≠ sprite then setAdd acc2 q else acc2) acc) acc := by
  induction cells generalizing acc with
  | nil => cases hk
  | cons k0 rest ih =>
    simp only [List.foldl_cons]
    rcases List.mem_cons.mp hk with rfl | h'
    · exact retrieveFold_mem_mono g sprite rest (cellScan_mem_self sprite hp hne)
    · exact ih h'

theorem retrieveFold_inv (g : SpatialHashGrid) (sprite : Sprite)
    (cells : List (Int × Int)) {acc : List Sprite}
    (hacc : (∀ x ∈ acc, x ≠ sprite) ∧ acc.Nodup) :
    (∀ x ∈ cells.foldl
      (fun acc k =>
        (bucketGet g.grid k).foldl
          (fun acc2 p => if p ≠ sprite then setAdd acc2 p else acc2) acc) acc,
      x ≠ sprite) ∧
    (cells.foldl
      (fun acc k =>
        (bucketGet g.grid k).foldl
          (fun acc2 p => if p ≠ sprite then setAdd acc2 p else acc2) acc) acc).Nodup := by
  induction cells generalizing acc with
  | nil => exact hacc
  | cons k0 rest ih =>
    simp only [List.foldl_cons]
    exact ih (cellScan_inv sprite _ hacc)

theorem retrieve_mem_of (g : SpatialHashGrid) (sprite : Sprite) {k : Int × Int}
    {p : Sprite} (hk : k ∈ cellsForRect g.cellSize sprite.rect)
    (hp : p ∈ bucketGet g.grid k) (hne : p ≠ sprite) :
    p ∈ g.retrieve sprite :=
  retrieveFold_mem_self g sprite hk hp hne

theorem retrieve_not_self (g : SpatialHashGrid) (sprite : Sprite) :
    sprite ∉ g.retrieve sprite := by
  intro h
  exact (retrieveFold_inv g sprite _
    ⟨fun x hx => absurd hx (List.not_mem_nil x), List.nodup_nil⟩).1 _ h rfl

theorem retrieve_nodup (g : SpatialHashGrid) (sprite : Sprite) :
    (g.retrieve sprite).Nodup :=
  (retrieveFold_inv g sprite _
    ⟨fun x hx => absurd hx (List.not_mem_nil x), List.nodup_nil⟩).2

theorem fdiv_mono_of_pos {c : Int} (hc : 0 < c) {x y : Int} (h : x ≤ y) :
    Int.fdiv x c ≤ Int.fdiv y c := by
  rw [Int.fdiv_eq_ediv _ (le_of_lt hc), Int.fdiv_eq_ediv _ (le_of_lt hc)]
  exact Int.ediv_le_ediv hc h

theorem exists_common_cell {cs : Int} (hcs : 0 < cs) {a b : Rect}
    (haw : 0 ≤ a.w) (hah : 0 ≤ a.h) (hbw : 0 ≤ b.w) (hbh : 0 ≤ b.h)
    (hov : collideRect a b) :
    ∃ k, k ∈ cellsForRect cs a ∧ k ∈ cellsForRect cs b := by
  obtain ⟨h1, h2, h3, h4⟩ := hov
  refine ⟨(Int.fdiv (max a.x b.x) cs, Int.fdiv (max a.y b.y) cs), ?_, ?_⟩
  · rw [mem_cellsForRect]
    constructor
    · exact ⟨fdiv_mono_of_pos hcs (le_max_left _ _),
        fdiv_mono_of_pos hcs (by omega)⟩
    · exact ⟨fdiv_mono_of_pos hcs (le_max_left _ _),
        fdiv_mono_of_pos hcs (by omega)⟩
  · rw [mem_cellsForRect]
    constructor
    · exact ⟨fdiv_mono_of_pos hcs (le_max_right _ _),
        fdiv_mono_of_pos hcs (by omega)⟩
    · exact ⟨fdiv_mono_of_pos hcs (le_max_right _ _),
        fdiv_mono_of_pos hcs (by omega)⟩

theorem spatial_hash_mutual_retrieve (g : SpatialHashGrid) (l : List Sprite)
    (a b : Sprite) (hcs : 0 < g.cellSize)
    (haw : 0 ≤ a.rect.w) (hah : 0 ≤ a.rect.h)
    (hbw : 0 ≤ b.rect.w) (hbh : 0 ≤ b.rect.h)
    (ha : a ∈ l) (hb : b ∈ l)
    (hne : a ≠ b) (hov : collideRect a.rect b.rect) :
    b ∈ (g.clear.insertAll l).retrieve a ∧ a ∈ (g.clear.insertAll l).retrieve b := by
  obtain ⟨k, hka, hkb⟩ := exists_common_cell hcs haw hah hbw hbh hov
  have hcell : (g.clear.insertAll l).cellSize = g.cellSize := by
    rw [insertAll_cellSize]; rfl
  constructor
  · apply retrieve_mem_of (g.clear.insertAll l) a (k := k)
    · rw [hcell]; exact hka
    · exact insertAll_mem_bucketGet g.clear hb (by exact hkb)
    · exact fun h => hne (h.symm)
  · apply retrieve_mem_of (g.clear.insertAll l) b (k := k)
    · rw [hcell]; exact hkb
    · exact insertAll_mem_bucketGet g.clear ha (by exact hka)
    · exact hne

@[simp] theorem cacheMask_idem (s : Sprite) : s.cacheMask.cacheMask = s.cacheMask := by
  unfold Sprite.cacheMask
  cases h : s.mask
  · simp
  · simp [h]

theorem hitScan_fst (l : List Sprite) (a : Sprite) :
    (hitScan a l).1 = (l.filter fun e => maskHit a e).map Sprite.cacheMask := by
  induction l generalizing a with
  | nil => rfl
  | cons e rest ih =>
    rw [hitScan, mask_collision_eq]
    simp only [List.filter_cons]
    by_cases h : maskHit a e
    · simp [h, ih, maskHit_cacheMask_left]
    · simp [h, ih, maskHit_cacheMask_left]

theorem hitScan_snd_cases (l : List Sprite) (a : Sprite) :
    (hitScan a l).2 = a ∨ (hitScan a l).2 = a.cacheMask := by
  induction l generalizing a with
  | nil => exact Or.inl rfl
  | cons e rest ih =>
    rw [hitScan, mask_collision_eq]
    rcases ih a.cacheMask with h | h
    · right; simpa using h
    · right; simpa using h

theorem powerupScan_fst (l : List Sprite) (a : Sprite) :
    (powerupScan a l).1 =
      (l.filter fun p => maskHit a p && p.active).map Sprite.cacheMask := by
  induction l generalizing a with
  | nil => rfl
  | cons p rest ih =>
    rw [powerupScan, mask_collision_eq]
    simp only [List.filter_cons]
    by_cases h : (maskHit a p && p.active) = true
    · simp only [cacheMask_active] at h ⊢
      simp [h, ih, maskHit_cacheMask_left]
    · simp only [cacheMask_active] at h ⊢
      simp [h, ih, maskHit_cacheMask_left]

theorem powerupScan_mem_active {l : List Sprite} {a q : Sprite}
    (h : q ∈ (powerupScan a l).1) : q.active = true := by
  rw [powerupScan_fst] at h
  obtain ⟨p, hp, rfl⟩ := List.mem_map.mp h
  have hand := (List.mem_filter.mp hp).2
  simp only [Bool.and_eq_true] at hand
  rw [cacheMask_active]
  exact hand.2

theorem checkPEC_foldl_mem (cs : CollisionSystem) (eg : List Sprite)
    (l : List Sprite) (acc : List (Sprite × List Sprite))
    (entry : Sprite × List Sprite) :
    (entry ∈ l.foldl
      (fun collisions projectile =>
        if (hitScan projectile
              ((cs.retrieveFor projectile).filter
                fun sprite => decide (sprite ∈ eg))).1 ≠ [] then
          collisions ++
            [((hitScan projectile
                ((cs.retrieveFor projectile).filter
                  fun sprite => decide (sprite ∈ eg))).2,
              (hitScan projectile
                ((cs.retrieveFor projectile).filter
                  fun sprite => decide (sprite ∈ eg))).1)]
        else collisions) acc) ↔
      entry ∈ acc ∨ ∃ p ∈ l,
        (hitScan p ((cs.retrieveFor p).filter fun s => decide (s ∈ eg))).1 ≠ [] ∧
        entry = ((hitScan p ((cs.retrieveFor p).filter fun s => decide (s ∈ eg))).2,
                 (hitScan p ((cs.retrieveFor p).filter fun s => decide (s ∈ eg))).1) := by
  induction l generalizing acc with
  | nil => simp
  | cons p rest ih =>
    simp only [List.foldl_cons]
    rw [ih]
    by_cases h : (hitScan p ((cs.retrieveFor p).filter fun s => decide (s ∈ eg))).1 ≠ []
    · rw [if_pos h]
      simp only [List.mem_append, List.mem_singleton]
      constructor
      · rintro ((hacc | rfl) | ⟨q, hq, hcond, rfl⟩)
        · exact Or.inl hacc
        · exact Or.inr ⟨p, List.mem_cons_self p rest, h, rfl⟩
        · exact Or.inr ⟨q, List.mem_cons_of_mem _ hq, hcond, rfl⟩
      · rintro (hacc | ⟨q, hq, hcond, rfl⟩)
        · exact Or.inl (Or.inl hacc)
        · rcases List.mem_cons.mp hq with rfl | hq2
          · exact Or.inl (Or.inr rfl)
          · exact Or.inr ⟨q, hq2, hcond, rfl⟩
    · rw [if_neg h]
      constructor
      · rintro (hacc | ⟨q, hq, hcond, rfl⟩)
        · exact Or.inl hacc
        · exact Or.inr ⟨q, List.mem_cons_of_mem _ hq, hcond, rfl⟩
      · rintro (hacc | ⟨q, hq, hcond, rfl⟩)
        · exact Or.inl hacc
        · rcases List.mem_cons.mp hq with rfl | hq2
          · exact absurd hcond h
          · exact Or.inr ⟨q, hq2, hcond, rfl⟩

theorem hitScan_snd_isEnemyProjectile (l : List Sprite) (a : Sprite) :
    (hitScan a l).2.isEnemyProjectile = a.isEnemyProjectile := by
  rcases hitScan_snd_cases l a with h | h <;> simp [h]

theorem maskHit_hitScan_snd (l : List Sprite) (a x : Sprite) :
    maskHit (hitScan a l).2 x = maskHit a x := by
  rcases hitScan_snd_cases l a with h | h <;> simp [h]

theorem mem_checkProjectileEnemyCollisions {cs : CollisionSystem}
    {pg eg : List Sprite} {entry : Sprite × List Sprite}
    (h : entry ∈ cs.checkProjectileEnemyCollisions pg eg) :
    entry.1.isEnemyProjectile = false ∧ entry.2 ≠ [] ∧
    ∀ e ∈ entry.2, (∃ e0 ∈ eg, e = e0.cacheMask) ∧ maskHit entry.1 e = true := by
  unfold CollisionSystem.checkProjectileEnemyCollisions at h
  rw [checkPEC_foldl_mem cs eg _ [] entry] at h
  rcases h with h | ⟨p, hp, hcond, rfl⟩
  · cases h
  · obtain ⟨hpg, hppl⟩ := List.mem_filter.mp hp
    have hpe : p.isEnemyProjectile = false := by
      cases hb : p.isEnemyProjectile
      · rfl
      · rw [hb] at hppl; cases hppl
    refine ⟨?_, hcond, ?_⟩
    · rw [hitScan_snd_isEnemyProjectile]
      exact hpe
    · intro e he
      rw [hitScan_fst] at he
      obtain ⟨e0, he0, rfl⟩ := List.mem_map.mp he
      obtain ⟨he0p, hhit⟩ := List.mem_filter.mp he0
      obtain ⟨_, he0eg⟩ := List.mem_filter.mp he0p
      refine ⟨⟨e0, of_decide_eq_true he0eg, rfl⟩, ?_⟩
      rw [maskHit_hitScan_snd]
      simpa using hhit

/-- C1 counterexample: both sprites are inserted into a fresh QuadTree
(which divides after the second insert), their rects truly overlap, yet
`retrieve` for the query sprite omits the other object: the object was
classified into the top-right child but extends far beyond that child's
recorded bounds, and the straddling query never visits that child because
its rect misses the child's bounds. -/
theorem c1_quadtree_counterexample :
    collideRect c1Obj.rect c1Query.rect ∧
    c1Obj ∉ c1Tree.retrieve [] c1Query := by decide

/-- C1 (amended): the no-false-negative guarantee holds for the
SpatialHashGrid: for any two distinct sprites with nonnegative-size rects
that truly overlap, both inserted since the last `clear()`, each is in the
other's `retrieve` result. (The QuadTree does not satisfy this; see the
counterexample.) -/
theorem c1_spatial_hash_no_false_negative
    (g : SpatialHashGrid) (l : List Sprite) (a b : Sprite)
    (hcs : 0 < g.cellSize)
    (haw : 0 ≤ a.rect.w) (hah : 0 ≤ a.rect.h)
    (hbw : 0 ≤ b.rect.w) (hbh : 0 ≤ b.rect.h)
    (ha : a ∈ l) (hb : b ∈ l) (hne : a ≠ b)
    (hov : collideRect a.rect b.rect) :
    b ∈ (g.clear.insertAll l).retrieve a ∧ a ∈ (g.clear.insertAll l).retrieve b :=
  spatial_hash_mutual_retrieve g l a b hcs haw hah hbw hbh ha hb hne hov

theorem c1_spatial_hash_no_false_negative_witness :
    c1GridB ∈ ((SpatialHashGrid.init 800 600 64).clear.insertAll
      [c1GridA, c1GridB]).retrieve c1GridA ∧
    c1GridA ∈ ((SpatialHashGrid.init 800 600 64).clear.insertAll
      [c1GridA, c1GridB]).retrieve c1GridB :=
  c1_spatial_hash_no_false_negative (SpatialHashGrid.init 800 600 64)
    [c1GridA, c1GridB] c1GridA c1GridB (by decide) (by decide) (by decide)
    (by decide) (by decide) (by decide) (by decide) (by decide) (by decide)

/-- C2 counterexample: `QuadTree.retrieve` includes the queried object
itself when it was inserted, and a double insertion yields a duplicated
result — only the SpatialHashGrid deduplicates and self-excludes. -/
theorem c2_quadtree_counterexample :
    c2Obj ∈ c2Tree.retrieve [] c2Obj ∧
    ¬ ((c2Tree.insert c2Obj).retrieve [] c2Obj).Nodup := by decide

/-- C2 (amended): `SpatialHashGrid.retrieve` excludes the queried sprite
and never returns duplicates, in every grid state — in particular after
double insertion or when objects span several cells. (`QuadTree.retrieve`
satisfies neither; see the counterexample.) -/
theorem c2_spatial_hash_retrieve_clean (g : SpatialHashGrid) (sprite : Sprite) :
    sprite ∉ g.retrieve sprite ∧ (g.retrieve sprite).Nodup :=
  ⟨retrieve_not_self g sprite, retrieve_nodup g sprite⟩

/-- C3 counterexample: constructing a SpatialHashGrid with `cell_size = 0`
or a QuadTree with `max_objects = 0` and `max_levels = 0` succeeds and
stores the invalid values verbatim — construction never raises. -/
theorem c3_no_validation_counterexample :
    (SpatialHashGrid.init 800 600 0).cellSize = 0 ∧
    (QuadTree.init ⟨0, 0, 800, 600⟩ 0 0 0).maxObjects = 0 ∧
    (QuadTree.init ⟨0, 0, 800, 600⟩ 0 0 0).maxLevels = 0 := by decide

/-- C3 (amended): construction performs no validation at all: every
configuration value, valid or not, is stored verbatim (neither rejected
nor clamped); failures can only surface later at use. -/
theorem c3_construction_stores_config (w h cs mo ml lv : Int) (b : Rect) :
    (SpatialHashGrid.init w h cs).cellSize = cs ∧
    (QuadTree.init b mo ml lv).maxObjects = mo ∧
    (QuadTree.init b mo ml lv).maxLevels = ml ∧
    (QuadTree.init b mo ml lv).level = lv :=
  ⟨rfl, rfl, rfl, rfl⟩

/-- C4 counterexample: a sprite carries a cached mask built from an older,
fully transparent image while its current image has an opaque pixel;
`mask_collision` keeps using the stale cache and reports no collision even
though the current visual footprints coincide — it never rebuilds a mask
on image change. -/
theorem c4_stale_mask_counterexample :
    (mask_collision c4Stale c4Fresh).1 = false ∧
    maskOverlapB c4Stale.image c4Fresh.image
      (c4Fresh.rect.x - c4Stale.rect.x, c4Fresh.rect.y - c4Stale.rect.y) = true := by
  decide

/-- C4 (amended): `mask_collision` (re)builds a mask only when the sprite
has none cached (missing attribute or `None`), never because the image
changed; provided every cached mask is absent or matches the sprite's
current image, the returned boolean does reflect the current visual
footprints, and the only mutation is filling absent caches from the
current image. -/
theorem c4_mask_collision_cached (s1 s2 : Sprite)
    (h1 : s1.mask = none ∨ s1.mask = some s1.image)
    (h2 : s2.mask = none ∨ s2.mask = some s2.image) :
    (mask_collision s1 s2).1 =
      maskOverlapB s1.image s2.image
        (s2.rect.x - s1.rect.x, s2.rect.y - s1.rect.y) ∧
    (mask_collision s1 s2).2.1 = s1.cacheMask ∧
    (mask_collision s1 s2).2.2 = s2.cacheMask := by
  rw [mask_collision_eq]
  refine ⟨?_, rfl, rfl⟩
  unfold maskHit Sprite.effMask
  rcases h1 with h1 | h1 <;> rcases h2 with h2 | h2 <;> rw [h1, h2] <;> rfl

theorem c4_mask_collision_cached_witness :
    (mask_collision c4CohA c4CohB).1 =
      maskOverlapB c4CohA.image c4CohB.image
        (c4CohB.rect.x - c4CohA.rect.x, c4CohB.rect.y - c4CohA.rect.y) ∧
    (mask_collision c4CohA c4CohB).2.1 = c4CohA.cacheMask ∧
    (mask_collision c4CohA c4CohB).2.2 = c4CohB.cacheMask :=
  c4_mask_collision_cached c4CohA c4CohB (by decide) (by decide)

/-- C5: when the player is invincible, both the player-enemy query and the
enemy-projectile-player query return empty immediately, for every
collision-system state and every group contents — the invincibility test
happens before any retrieval or narrow-phase work, and the player comes
back unchanged (no state is touched). -/
theorem c5_invincibility_short_circuit (cs : CollisionSystem) (player : Sprite)
    (enemyGroup projectileGroup : List Sprite)
    (hinv : player.invincible = true) :
    cs.checkPlayerEnemyCollisions player enemyGroup = ([], player) ∧
    cs.checkEnemyProjectilePlayerCollision player projectileGroup = ([], player) := by
  unfold CollisionSystem.checkPlayerEnemyCollisions
    CollisionSystem.checkEnemyProjectilePlayerCollision
  simp [hinv]

theorem c5_invincibility_short_circuit_witness :
    c5Cs.checkPlayerEnemyCollisions c5Player [c5Enemy] = ([], c5Player) ∧
    c5Cs.checkEnemyProjectilePlayerCollision c5Player [] = ([], c5Player) :=
  c5_invincibility_short_circuit c5Cs c5Player [c5Enemy] [] (by decide)

/-- C6: invoking the powerup handler on an active powerup returns true and
deactivates the powerup; and an inactive sprite can never appear in any
`check_player_powerup_collisions` result in any later frame, regardless of
spatial overlap, because every member of such a result is active. -/
theorem c6_powerup_single_use (cfg : Config) (now : Int) (player powerup : Sprite)
    (hact : powerup.active = true) :
    (handle_player_powerup_collision player powerup cfg now).1 = true ∧
    (handle_player_powerup_collision player powerup cfg now).2.2.active = false ∧
    (∀ s : Sprite, s.active = false → ∀ (cs : CollisionSystem) (pl : Sprite)
      (grp : List Sprite), s ∉ (cs.checkPlayerPowerupCollisions pl grp).1) := by
  refine ⟨?_, ?_, ?_⟩
  · unfold handle_player_powerup_collision Sprite.applyEffect
    simp [hact]
  · unfold handle_player_powerup_collision Sprite.applyEffect Sprite.deactivate
    simp [hact]
  · intro s hs cs pl grp hmem
    simp only [CollisionSystem.checkPlayerPowerupCollisions] at hmem
    have hactive := powerupScan_mem_active hmem
    rw [hs] at hactive
    cases hactive

theorem c6_powerup_single_use_witness :
    (handle_player_powerup_collision c6Player c6Powerup { } 0).1 = true ∧
    (handle_player_powerup_collision c6Player c6Powerup { } 0).2.2.active = false ∧
    (∀ s : Sprite, s.active = false → ∀ (cs : CollisionSystem) (pl : Sprite)
      (grp : List Sprite), s ∉ (cs.checkPlayerPowerupCollisions pl grp).1) :=
  c6_powerup_single_use { } 0 c6Player c6Powerup (by decide)

/-- C7: the projectile-enemy handler kills the projectile unconditionally,
subtracts exactly `projectile.damage` from `enemy.health`, and returns true
exactly when the resulting health is ≤ 0; in particular with health 5 it
returns true for damage 5, and false with remaining health 1 for damage 4. -/
theorem c7_resolve_projectile_enemy (projectile enemy : Sprite) (now : Int) :
    ((handle_projectile_enemy_collision projectile enemy now).2.1.alive = false ∧
     (handle_projectile_enemy_collision projectile enemy now).2.2.health =
       enemy.health - projectile.damage ∧
     ((handle_projectile_enemy_collision projectile enemy now).1 = true ↔
       enemy.health - projectile.damage ≤ 0)) ∧
    (handle_projectile_enemy_collision c7Proj5 c7Enemy 0).1 = true ∧
    (handle_projectile_enemy_collision c7Proj4 c7Enemy 0).1 = false ∧
    (handle_projectile_enemy_collision c7Proj4 c7Enemy 0).2.2.health = 1 := by
  refine ⟨⟨rfl, ?_, ?_⟩, by decide, by decide, by decide⟩
  · unfold handle_projectile_enemy_collision Sprite.takeDamageEnemy
      Sprite.startFlashEffect Sprite.kill
    dsimp only
    split <;> rfl
  · unfold handle_projectile_enemy_collision Sprite.takeDamageEnemy
      Sprite.startFlashEffect Sprite.kill
    dsimp only
    split
    · rename_i h
      simpa using h
    · rename_i h
      simpa using h

/-- C8: every entry of `check_projectile_enemy_collisions` has a player
projectile (non-enemy-projectile) key, maps to a non-empty list, and every
listed enemy is a member of the enemy collection (in its post-scan,
mask-cached state) confirmed by the narrow-phase mask test; a projectile
with zero confirmed hits contributes no entry, so empty lists never
appear. -/
theorem c8_projectile_enemy_query_shape (cs : CollisionSystem)
    (pg eg : List Sprite) (entry : Sprite × List Sprite)
    (h : entry ∈ cs.checkProjectileEnemyCollisions pg eg) :
    entry.1.isEnemyProjectile = false ∧ entry.2 ≠ [] ∧
    ∀ e ∈ entry.2, (∃ e0 ∈ eg, e = e0.cacheMask) ∧ maskHit entry.1 e = true :=
  mem_checkProjectileEnemyCollisions h

theorem c8_projectile_enemy_query_shape_witness :
    c8Entry.1.isEnemyProjectile = false ∧ c8Entry.2 ≠ [] ∧
    ∀ e ∈ c8Entry.2, (∃ e0 ∈ [c8Enemy], e = e0.cacheMask) ∧
      maskHit c8Entry.1 e = true :=
  c8_projectile_enemy_query_shape c8Cs [c8Proj] [c8Enemy] c8Entry (by decide)

/-- C9: when the enemy's collision cooldown has not elapsed
(`can_collide` false) the handler returns false leaving the player —
health, invincibility, every field — and the enemy unchanged; when it has
elapsed, the outcome and the updated player are exactly those of
`Player.take_damage` applied with `enemy.damage`. -/
theorem c9_player_enemy_cooldown_gate (player enemy : Sprite) (now : Int) :
    ((enemy.canCollide now).1 = false →
      handle_player_enemy_collision player enemy now = (false, player, enemy)) ∧
    ((enemy.canCollide now).1 = true →
      (handle_player_enemy_collision player enemy now).1 =
        (player.takeDamagePlayer enemy.damage now).1 ∧
      (handle_player_enemy_collision player enemy now).2.1 =
        (player.takeDamagePlayer enemy.damage now).2) := by
  unfold handle_player_enemy_collision Sprite.canCollide
  by_cases h : enemy.collisionCooldown < now - enemy.lastCollisionTime
  · rw [if_pos h]
    constructor
    · intro hfalse
      simp at hfalse
    · intro _
      exact ⟨rfl, rfl⟩
  · rw [if_neg h]
    constructor
    · intro _
      rfl
    · intro htrue
      simp at htrue

theorem c9_player_enemy_cooldown_gate_witness :
    handle_player_enemy_collision c9Player c9Enemy 500 = (false, c9Player, c9Enemy) ∧
    ((handle_player_enemy_collision c9Player c9Enemy 2000).1 =
       (c9Player.takeDamagePlayer c9Enemy.damage 2000).1 ∧
     (handle_player_enemy_collision c9Player c9Enemy 2000).2.1 =
       (c9Player.takeDamagePlayer c9Enemy.damage 2000).2) :=
  ⟨(c9_player_enemy_cooldown_gate c9Player c9Enemy 500).1 (by decide),
   (c9_player_enemy_cooldown_gate c9Player c9Enemy 2000).2 (by decide)⟩

/-- C10: with an invincible player, the enemy-projectile-player handler
still kills the projectile unconditionally, leaves the player entirely
unchanged (in particular health), and returns false — projectile
deactivation does not depend on damage being applied. -/
theorem c10_invincible_projectile_still_killed (player projectile : Sprite)
    (now : Int) (hinv : player.invincible = true) :
    (handle_enemy_projectile_player_collision player projectile now).2.2.alive = false ∧
    (handle_enemy_projectile_player_collision player projectile now).2.1 = player ∧
    (handle_enemy_projectile_player_collision player projectile now).1 = false := by
  refine ⟨rfl, ?_, ?_⟩ <;>
    · unfold handle_enemy_projectile_player_collision Sprite.takeDamagePlayer
      simp [hinv]

theorem c10_invincible_projectile_still_killed_witness :
    (handle_enemy_projectile_player_collision c10Player c10Proj 0).2.2.alive = false ∧
    (handle_enemy_projectile_player_collision c10Player c10Proj 0).2.1 = c10Player ∧
    (handle_enemy_projectile_player_collision c10Player c10Proj 0).1 = false :=
  c10_invincible_projectile_still_killed c10Player c10Proj 0 (by decide)
